import Mathlib

/-!
Verification development for the VCA live voice-call conversation orchestrator.

The definitions below are a shallow embedding of the Python sources:
  - backend/ai_services/conversation_state.py  (ConversationStateManager)
  - backend/ai_services/ai_loop_handler.py     (AILoopHandler._conversation_loop)
  - backend/ai_services/stt.py / tts.py / llm.py (adapter retry structure)
  - backend/ai_services/ari_client.py          (ARIClient._is_silence)

External effects (Redis, the OpenAI APIs, the ARI transport, wall-clock time)
are modelled by explicit state passing and by per-iteration oracle inputs that
supply the outcome of each external call.  Timestamps are abstract Nat ticks.
-/

/-- One entry of `state["conversation_history"]` in conversation_state.py:
a dict with keys role, content, timestamp (timestamp abstracted to a Nat tick). -/
structure ConvMessage where
  role : String
  content : String
  timestamp : Nat
deriving DecidableEq

/-- The per-call Redis document built by `ConversationStateManager.initialize_call`
(conversation_state.py lines 108-119).  `lifecycle` is the source key "state";
`call_id`, `tenant_id`, `ai_profile_id` and `metadata` are omitted: no claim
depends on them and no operation below reads them. -/
structure ConvState where
  turn_count : Nat
  conversation_history : List ConvMessage
  lifecycle : String
  silence_count : Nat
  ai_exit_reason : Option String
  started_at : Nat
deriving DecidableEq

/-- Initial state written by `initialize_call` (conversation_state.py 108-119). -/
def initialState (startedAt : Nat) : ConvState :=
  { turn_count := 0
    conversation_history := []
    lifecycle := "active"
    silence_count := 0
    ai_exit_reason := none
    started_at := startedAt }

/-- `ConversationStateManager.add_turn` (conversation_state.py 169-222):
appends a message to the history and increments `turn_count` exactly when the
role is "user".  `now` stands for `time.time()`. -/
def add_turn (st : ConvState) (role content : String) (now : Nat) : ConvState :=
  { st with
    conversation_history := st.conversation_history ++ [ ⟨role, content, now⟩ ]
    turn_count := if role = "user" then st.turn_count + 1 else st.turn_count }

/-- `ConversationStateManager.get_conversation_history` (conversation_state.py
224-247): projects each stored message to its (role, content) pair, dropping
the timestamp, in stored order. -/
def get_conversation_history (st : ConvState) : List (String × String) :=
  st.conversation_history.map (fun m => ( m.role, m.content ))

/-- `ConversationStateManager.should_end_conversation` (conversation_state.py
249-289).  `none` models a missing Redis entry.  The sequential `if` chain of
the source is kept exactly: missing state, then already ending/ended, then the
turn limit, then the duration limit. -/
def should_end_conversation (st : Option ConvState) (now maxTurns maxDuration : Nat) :
    Bool × Option String :=
  match st with
  | none => ( true, some "no_state" )
  | some s =>
    if s.lifecycle = "ending" ∨ s.lifecycle = "ended" then ( true, some "already_ending" )
    else if maxTurns ≤ s.turn_count then ( true, some "max_turns" )
    else if maxDuration ≤ now - s.started_at then ( true, some "max_duration" )
    else ( false, none )

/-- `ConversationStateManager.increment_silence_count` (conversation_state.py
291-317): adds one to the counter and returns the new value. -/
def increment_silence_count (st : ConvState) : ConvState × Nat :=
  ( { st with silence_count := st.silence_count + 1 }, st.silence_count + 1 )

/-- `ConversationStateManager.reset_silence_count` (conversation_state.py 319-335). -/
def reset_silence_count (st : ConvState) : ConvState :=
  { st with silence_count := 0 }

/-- `ConversationStateManager.set_exit_reason` (conversation_state.py 337-358):
when the state document exists it writes `state["ai_exit_reason"] = reason`
unconditionally — the source has no already-set guard. -/
def set_exit_reason (st : ConvState) (reason : String) : ConvState :=
  { st with ai_exit_reason := some reason }

/-- `ConversationStateManager.mark_ending` (conversation_state.py 360-383):
sets the lifecycle to "ending" and, when the optional `reason` argument is
truthy (present and non-empty), overwrites `ai_exit_reason` with it. -/
def mark_ending (st : ConvState) (reason : Option String) : ConvState :=
  { st with
    lifecycle := "ending"
    ai_exit_reason :=
      match reason with
      | some r => if r = "" then st.ai_exit_reason else some r
      | none => st.ai_exit_reason }

/-!
Loop orchestrator model (`AILoopHandler._conversation_loop`, ai_loop_handler.py
lines 228-442).

NOTE on the exception handlers (source lines 367-430): as committed, the
bodies of the `except STTServiceError` / `except LLMServiceError` /
`except TTSServiceError` handlers and of the two trailing `except Exception`
handlers are written at the same indentation as the `except` keyword itself,
which is an IndentationError — the module cannot be imported by CPython.
The model below embeds the minimal re-indentation (each handler body indented
one level under its `except`), which keeps every statement and its order
exactly as written.  Under that reading:
  - the TimeoutError handler swallows an apology failure with `pass` and then
    unconditionally breaks;
  - the STT/LLM/TTS handlers put the loop-breaking `break` inside the
    `except Exception:` of the apology attempt, so they break only when the
    apology itself raises, and fall through to the next iteration when the
    apology succeeds;
  - the first bare `except Exception` handler (line 408) sets exit reason
    "timeout"; it shadows the later "general_error" handler (line 419), which
    additionally sits at an indentation with no matching `try`.
-/

/-- Exception kinds that can reach the per-iteration handlers of the loop:
`asyncio.TimeoutError`, the three typed adapter errors, and any other
exception (ARIClientError, ConversationStateError, ...). -/
inductive Exc
  | timeoutE
  | sttE
  | llmE
  | ttsE
  | otherE
deriving DecidableEq

/-- Outcome of one `_play_response` invocation (ai_loop_handler.py 444-485):
`ok` means synthesis, playback and the history append all succeeded;
`raised e` means a TTSServiceError or ARIClientError (or, under
`asyncio.wait_for`, a TimeoutError) escaped `_play_response`;
`swallowed` means some other exception was caught and logged inside it. -/
inductive PlayOutcome
  | ok
  | raised (e : Exc)
  | swallowed
deriving DecidableEq

/-- Oracle input for one loop iteration (one inbound audio chunk): the wall
clock at the iteration top, the outcome of each external call the iteration
might make, and whether the total-iteration budget check fires. -/
structure ChunkInput where
  now : Nat
  stt : Except Exc String
  llm : Except Exc String
  promptPlay : PlayOutcome
  respPlay : PlayOutcome
  goodbyePlay : PlayOutcome
  apologyPlay : PlayOutcome
  overrun : Bool

/-- Orchestrator-visible state of one running `_conversation_loop`:
the Redis document, the audio accumulation buffer (in ms), the log of lines
successfully played to the caller as (context, text) pairs, the number of
STT invocations made, and whether the loop has broken out. -/
structure LoopState where
  conv : ConvState
  bufferMs : Nat
  spoken : List ( String × String )
  sttCalls : Nat
  ended : Bool

/-- Configured conversation limits (settings.max_conversation_turns and
settings.max_conversation_duration_seconds read by ConversationStateManager). -/
structure LoopCfg where
  maxTurns : Nat
  maxDuration : Nat

/-- Safety limit `max_iterations = 50` (ai_loop_handler.py 247). -/
def max_iterations : Nat := 50

/-- `chunk_duration_ms = 200` (ari_client.py 93), added to the buffer per chunk. -/
def chunk_duration_ms : Nat := 200

/-- `max_buffer_duration_ms = 3000` (ai_loop_handler.py 253). -/
def max_buffer_duration_ms : Nat := 3000

/-- The canned-response table `self.error_responses` (ai_loop_handler.py 86-96). -/
def error_responses (reason : String) : Option String :=
  if reason = "stt_failure" then some "I'm sorry, I'm having trouble hearing you. Goodbye."
  else if reason = "llm_failure" then some "I apologize, I'm having technical difficulties. Goodbye."
  else if reason = "tts_failure" then some "I'm experiencing audio issues. Goodbye."
  else if reason = "max_turns" then some "Thank you for calling. I hope I was able to help you today. Goodbye!"
  else if reason = "max_duration" then some "I apologize, but we've reached the maximum call duration. Thank you for calling!"
  else if reason = "silence" then some "I haven't heard from you. Thank you for calling. Goodbye."
  else if reason = "confusion" then some "I'm sorry, I'm unable to help with that. Goodbye."
  else if reason = "timeout" then some "I apologize for the delay. Goodbye."
  else if reason = "general_error" then some "I apologize for the inconvenience. Goodbye."
  else none

/-- Default goodbye used when the exit reason has no canned line
(`self.error_responses.get(reason, "Thank you for calling. Goodbye!")`). -/
def default_goodbye : String := "Thank you for calling. Goodbye!"

/-- The first-silence prompt (ai_loop_handler.py 303). -/
def still_there_prompt : String := "Are you still there?"

/-- Python `str.strip()` on the character list: drop leading and trailing
whitespace.  (Implemented over `String.data` so that it evaluates inside the
kernel; `String.trim` agrees but does not reduce there.) -/
def pyStrip (s : String) : String :=
  String.mk (((s.data.dropWhile Char.isWhitespace).reverse.dropWhile Char.isWhitespace).reverse)

/-- Python `str.lower()` on the character list. -/
def pyLower (s : String) : String := String.mk (s.data.map Char.toLower)

/-- Python slicing `s[:n]` on the character list. -/
def pyTake (s : String) (n : Nat) : String := String.mk (s.data.take n)

/-- Whether `pat` is a prefix of `cs` (character lists). -/
def isPrefixOfCL : List Char → List Char → Bool
  | [], _ => true
  | _ :: _, [] => false
  | p :: ps, c :: cs => p == c && isPrefixOfCL ps cs

/-- Whether `pat` occurs in `cs` (character lists): Python `pat in text`. -/
def containsCL (pat : List Char) : List Char → Bool
  | [] => isPrefixOfCL pat []
  | c :: rest => isPrefixOfCL pat (c :: rest) || containsCL pat rest

/-- Substring test: Python `phrase in text`. -/
def containsSub (text pat : String) : Bool := containsCL pat.data text.data

/-- `confusion_phrases` (ai_loop_handler.py 336). -/
def confusion_phrases : List String :=
  [ "i don't understand", "i'm not sure", "i can't help" ]

/-- The confusion check (ai_loop_handler.py 337):
`any(phrase in ai_response.lower() for phrase in confusion_phrases)`. -/
def isConfused (response : String) : Bool :=
  confusion_phrases.any (fun p => containsSub (pyLower response) p)

/-- `_play_response` (ai_loop_handler.py 444-485): on success the line is
played and, for any context other than "greeting", appended to the history as
an assistant turn; a raised TTS/ARI/timeout error propagates to the caller;
any other internal failure is swallowed. Returns the new state and the
escaped exception, if any. -/
def play_response (st : LoopState) (context text : String) (po : PlayOutcome)
    (now : Nat) : LoopState × Option Exc :=
  match po with
  | .ok =>
      ( { st with
          spoken := st.spoken ++ [ ( context, text ) ]
          conv := if context = "greeting" then st.conv
                  else add_turn st.conv "assistant" text now }, none )
  | .raised e => ( st, some e )
  | .swallowed => ( st, none )

/-- The per-iteration exception handlers of `_conversation_loop`
(ai_loop_handler.py 367-430, minimally re-indented as described above).
`apology` is the outcome of the `_play_response` attempt inside the handler. -/
def handle_exc (st : LoopState) (e : Exc) (apology : PlayOutcome) (now : Nat) :
    LoopState :=
  match e with
  | .timeoutE =>
      let st1 : LoopState := { st with conv := set_exit_reason st.conv "timeout" }
      let st2 := (play_response st1 "error" ((error_responses "timeout").getD "") apology now).1
      { st2 with ended := true }
  | .sttE =>
      let st1 : LoopState := { st with conv := set_exit_reason st.conv "stt_failure" }
      let pr := play_response st1 "error" ((error_responses "stt_failure").getD "") apology now
      match pr.2 with
      | some _ => { pr.1 with ended := true }
      | none => pr.1
  | .llmE =>
      let st1 : LoopState := { st with conv := set_exit_reason st.conv "llm_failure" }
      let pr := play_response st1 "error" ((error_responses "llm_failure").getD "") apology now
      match pr.2 with
      | some _ => { pr.1 with ended := true }
      | none => pr.1
  | .ttsE =>
      let st1 : LoopState := { st with conv := set_exit_reason st.conv "tts_failure" }
      let pr := play_response st1 "error" ((error_responses "tts_failure").getD "") apology now
      match pr.2 with
      | some _ => { pr.1 with ended := true }
      | none => pr.1
  | .otherE =>
      let st1 : LoopState := { st with conv := set_exit_reason st.conv "timeout" }
      let st2 := (play_response st1 "error" ((error_responses "timeout").getD "") apology now).1
      { st2 with ended := true }

/-- One iteration of `_conversation_loop` (ai_loop_handler.py 257-430), for the
chunk received as `inp`, with `iteration` already incremented (the source does
`iteration += 1` on chunk arrival, so the first chunk runs with iteration 1).
Follows the source body statement by statement; the exception handlers are
`handle_exc`. -/
def stepIter (cfg : LoopCfg) (iteration : Nat) (st : LoopState) (inp : ChunkInput) :
    LoopState :=
  let se := should_end_conversation (some st.conv) inp.now cfg.maxTurns cfg.maxDuration
  if se.1 then
    let reason := se.2.getD ""
    let st1 : LoopState := { st with conv := set_exit_reason st.conv reason }
    let goodbye := (error_responses reason).getD default_goodbye
    let pr := play_response st1 "goodbye" goodbye inp.goodbyePlay inp.now
    match pr.2 with
    | some e => handle_exc pr.1 e inp.apologyPlay inp.now
    | none => { pr.1 with ended := true }
  else if max_iterations ≤ iteration then
    { st with conv := set_exit_reason st.conv "max_turns", ended := true }
  else
    let bufMs := st.bufferMs + chunk_duration_ms
    if bufMs < max_buffer_duration_ms then
      { st with bufferMs := bufMs }
    else
      let st1 : LoopState := { st with bufferMs := bufMs, sttCalls := st.sttCalls + 1 }
      match inp.stt with
      | .error e => handle_exc st1 e inp.apologyPlay inp.now
      | .ok caller_text =>
        if pyStrip caller_text = "" then
          let inc := increment_silence_count st1.conv
          let st2 : LoopState := { st1 with conv := inc.1 }
          if inc.2 = 1 then
            let pr := play_response st2 "silence_prompt" still_there_prompt inp.promptPlay inp.now
            match pr.2 with
            | some e => handle_exc pr.1 e inp.apologyPlay inp.now
            | none => { pr.1 with bufferMs := 0 }
          else if 2 ≤ inc.2 then
            let st3 : LoopState := { st2 with conv := set_exit_reason st2.conv "silence" }
            let goodbye := (error_responses "silence").getD default_goodbye
            let pr := play_response st3 "goodbye" goodbye inp.goodbyePlay inp.now
            match pr.2 with
            | some e => handle_exc pr.1 e inp.apologyPlay inp.now
            | none => { pr.1 with ended := true }
          else
            { st2 with bufferMs := 0 }
        else
          let st2 : LoopState := { st1 with conv := reset_silence_count st1.conv }
          let st3 : LoopState := { st2 with conv := add_turn st2.conv "user" caller_text inp.now }
          match inp.llm with
          | .error e => handle_exc st3 e inp.apologyPlay inp.now
          | .ok ai_response =>
            if isConfused ai_response then
              let st4 : LoopState := { st3 with conv := set_exit_reason st3.conv "confusion" }
              let pr := play_response st4 "confusion" ai_response inp.respPlay inp.now
              match pr.2 with
              | some e => handle_exc pr.1 e inp.apologyPlay inp.now
              | none => { pr.1 with ended := true }
            else
              let pr := play_response st3 "response" ai_response inp.respPlay inp.now
              match pr.2 with
              | some e => handle_exc pr.1 e inp.apologyPlay inp.now
              | none =>
                let st4 : LoopState := { pr.1 with bufferMs := 0 }
                if inp.overrun then
                  let st5 : LoopState := { st4 with conv := set_exit_reason st4.conv "timeout" }
                  let goodbye := (error_responses "timeout").getD default_goodbye
                  let pr2 := play_response st5 "goodbye" goodbye inp.goodbyePlay inp.now
                  match pr2.2 with
                  | some e => handle_exc pr2.1 e inp.apologyPlay inp.now
                  | none => { pr2.1 with ended := true }
                else st4

/-- Run `_conversation_loop` over a finite inbound chunk sequence, starting at
iteration count `iter` (0 before the first chunk).  A broken loop consumes no
further chunks. -/
def runLoop (cfg : LoopCfg) : Nat → LoopState → List ChunkInput → LoopState
  | _, st, [] => st
  | iter, st, inp :: rest =>
      if st.ended then st
      else runLoop cfg (iter + 1) (stepIter cfg (iter + 1) st inp) rest

/-- Fresh loop state at loop entry: freshly initialized call document, empty
buffer, nothing spoken inside the loop yet. -/
def freshLoopState (startedAt : Nat) : LoopState :=
  { conv := initialState startedAt
    bufferMs := 0
    spoken := []
    sttCalls := 0
    ended := false }

/-!
Turn-service adapters (stt.py, tts.py, llm.py).  Each adapter runs a
`for attempt in range(self.max_retries + 1)` loop around one external API
call; the external call's outcome per attempt is supplied by an oracle
(`some v` = the attempt succeeds with value v; `none` = the attempt raises or
times out).  The model returns the final result (`none` = the typed service
error is raised after the loop) together with the number of attempts made.
-/

/-- `self.max_retries` of STTService (stt.py line 57). -/
def stt_max_retries : Nat := 2

/-- `self.max_retries` of TTSService (tts.py line 69). -/
def tts_max_retries : Nat := 2

/-- `self.max_retries` of LLMService (llm.py line 60): single-attempt fail-fast. -/
def llm_max_retries : Nat := 0

/-- The attempt loop shared by the three adapters: try attempts
`a, a+1, ...` while `n` attempts remain; return the first success and the
count of attempts made, or `none` after all attempts fail. -/
def run_attempts {α : Type} (oracle : Nat → Option α) : Nat → Nat → Option α × Nat
  | 0, a => ( none, a )
  | n + 1, a =>
      match oracle a with
      | some v => ( some v, a + 1 )
      | none => run_attempts oracle n (a + 1)

/-- `STTService.transcribe_audio` (stt.py 62-154) at the attempt level:
empty audio short-circuits to the empty string with no API call; otherwise the
attempt loop runs with `max_retries = 2` (up to three attempts, exponential
backoff between them), raising STTServiceError only when all attempts fail. -/
def transcribe_audio (audioNonempty : Bool) (oracle : Nat → Option String) :
    Option String × Nat :=
  if audioNonempty then run_attempts oracle (stt_max_retries + 1) 0
  else ( some "", 0 )

/-- Text preparation inside `TTSService.synthesize_speech` (tts.py 108-120):
empty or whitespace-only text yields no synthesis call (empty bytes returned);
text longer than 500 characters is truncated to its first 500 characters plus
"..." before being sent to the API; shorter text is sent as is. -/
def synthesize_speech_prepared (text : String) : Option String :=
  if pyStrip text = "" then none
  else if 500 < text.length then some (pyTake text 500 ++ "...")
  else some text

/-- `TTSService.synthesize_speech` (tts.py 77-181) at the attempt level:
empty or whitespace-only text short-circuits; otherwise the attempt loop runs
with `max_retries = 2`, raising TTSServiceError only when all attempts fail. -/
def synthesize_speech (text : String) (oracle : Nat → Option (List Nat)) :
    Option (List Nat) × Nat :=
  match synthesize_speech_prepared text with
  | none => ( some [], 0 )
  | some _ => run_attempts oracle (tts_max_retries + 1) 0

/-- `LLMService.generate_response` (llm.py 67-172) at the attempt level:
an empty or whitespace-only system prompt raises LLMServiceError before any
API call; otherwise the attempt loop runs with `max_retries = 0`, i.e. a
single attempt whose failure raises LLMServiceError immediately. -/
def generate_response (system_prompt : String) (oracle : Nat → Option String) :
    Option String × Nat :=
  if pyStrip system_prompt = "" then ( none, 0 )
  else run_attempts oracle (llm_max_retries + 1) 0

/-!
Voice-activity detection (`ARIClient._is_silence`, ari_client.py 313-342).
A chunk is a list of byte values; `struct.unpack` decodes consecutive byte
pairs as little-endian signed 16-bit samples and raises on a trailing odd
byte, which the source catches and treats as silence.  The source compares
`rms = (sum(s*s for s in samples) / len(samples)) ** 0.5` against the
threshold; for a nonnegative threshold that comparison is algebraically
`mean_square < threshold²`, which is what the model computes (exact rational
arithmetic in place of the source's float arithmetic).
-/

/-- Decode one little-endian signed 16-bit PCM sample from two bytes. -/
def decodeSample (lo hi : Nat) : Int :=
  let v : Nat := lo % 256 + 256 * (hi % 256)
  if v < 32768 then (v : Int) else (v : Int) - 65536

/-- Decode a byte list into 16-bit samples; `none` models the struct.unpack
error on an odd-length buffer. -/
def bytesToSamples : List Nat → Option (List Int)
  | [] => some []
  | [ _ ] => none
  | lo :: hi :: rest => (bytesToSamples rest).map (fun ss => decodeSample lo hi :: ss)

/-- Sum of squared samples, the numerator of the mean-square energy. -/
def sumSquares (ss : List Int) : Int := (ss.map (fun s => s * s)).sum

/-- `ARIClient._is_silence` (ari_client.py 313-342): empty chunk is silence;
a chunk that fails to decode (odd length) is silence; otherwise the chunk is
silence exactly when its RMS energy is below the threshold, computed here as
`mean_square < threshold²` over exact rationals. -/
def is_silence (chunk : List Nat) (threshold : Nat) : Bool :=
  if chunk.isEmpty then true
  else
    match bytesToSamples chunk with
    | none => true
    | some ss =>
        decide (((sumSquares ss : ℚ) / (ss.length : ℚ)) < ((threshold : ℚ)) ^ 2)

/-- The configured VAD threshold `self.silence_threshold = 500` (ari_client.py 97). -/
def silence_threshold : Nat := 500

/-!
Concrete scenario material used by the theorems below: oracle inputs in which
every external call succeeds, plus the specific failure inputs and states that
the counterexamples and trace theorems evaluate.
-/

/-- A chunk input whose playback calls all succeed, with the given clock and
STT/LLM outcomes, and no per-iteration budget overrun. -/
def benignInput (now : Nat) (sttRes llmRes : Except Exc String) : ChunkInput :=
  { now := now
    stt := sttRes
    llm := llmRes
    promptPlay := PlayOutcome.ok
    respPlay := PlayOutcome.ok
    goodbyePlay := PlayOutcome.ok
    apologyPlay := PlayOutcome.ok
    overrun := false }

/-- A chunk whose transcription (if reached) is empty. While the buffer is
below the threshold no external call is made, so this also serves as a pure
accumulation chunk. -/
def silentChunk (now : Nat) : ChunkInput := benignInput now (Except.ok "") (Except.ok "")

/-- A chunk whose transcription (if reached) is the utterance `u`, answered by
the LLM with `r`. -/
def speechChunk (now : Nat) (u r : String) : ChunkInput :=
  benignInput now (Except.ok u) (Except.ok r)

/-- Max-turns scenario (claim C8): `max_turns = 2`; each utterance needs
15 chunks of 200 ms to fill the 3000 ms buffer; a final chunk follows the
second answered utterance. -/
def c8_inputs : List ChunkInput :=
  List.replicate 14 (silentChunk 0)
    ++ [ speechChunk 0 "Hello" "Hi there, how can I assist you today?" ]
    ++ List.replicate 14 (silentChunk 0)
    ++ [ speechChunk 0 "What are your opening hours?" "We are open nine to five." ]
    ++ [ silentChunk 0 ]

/-- Final loop state of the max-turns scenario. -/
def c8_final : LoopState := runLoop ⟨2, 75⟩ 0 (freshLoopState 0) c8_inputs

/-- A full-buffer chunk on which the STT call raises STTServiceError while the
canned apology plays successfully. -/
def stt_failure_chunk : ChunkInput :=
  { now := 0
    stt := Except.error Exc.sttE
    llm := Except.ok ""
    promptPlay := PlayOutcome.ok
    respPlay := PlayOutcome.ok
    goodbyePlay := PlayOutcome.ok
    apologyPlay := PlayOutcome.ok
    overrun := false }

/-- Failure scenario (claim C1): 14 accumulation chunks, then the chunk whose
transcription fails with a successful apology, then one further chunk carrying
a normal utterance. -/
def c1_inputs : List ChunkInput :=
  List.replicate 14 (silentChunk 0) ++ [ stt_failure_chunk ]
    ++ [ speechChunk 0 "Hello" "Nice to meet you." ]

/-- Final loop state of the failure scenario. -/
def c1_final : LoopState := runLoop ⟨5, 75⟩ 0 (freshLoopState 0) c1_inputs

/-- A loop state one chunk short of the transcription threshold. -/
def full_buffer_state : LoopState := { freshLoopState 0 with bufferMs := 2800 }

/-- A full-buffer chunk on which the step raises a non-typed exception
(e.g. ARIClientError), apology succeeding. -/
def other_failure_chunk : ChunkInput :=
  { now := 0
    stt := Except.error Exc.otherE
    llm := Except.ok ""
    promptPlay := PlayOutcome.ok
    respPlay := PlayOutcome.ok
    goodbyePlay := PlayOutcome.ok
    apologyPlay := PlayOutcome.ok
    overrun := false }

/-- Attempt oracle for the retry counterexample: the first API attempt fails,
the second succeeds with "hello". -/
def stt_cex_oracle : Nat → Option String := fun a => if a = 0 then none else some "hello"

/-- A call document whose exit reason has already been set to "silence". -/
def prior_reason_state : ConvState := { initialState 0 with ai_exit_reason := some "silence" }

/-- A call document already marked ending, with recorded exit reason "silence". -/
def ending_reason_state : ConvState :=
  { initialState 0 with lifecycle := "ending", ai_exit_reason := some "silence" }

/-- Append a list of ((role, content), timestamp) turns with `add_turn`. -/
def appendTurns (st : ConvState) (turns : List ((String × String) × Nat)) : ConvState :=
  turns.foldl (fun s rct => add_turn s rct.1.1 rct.1.2 rct.2) st

/-- An arbitrary mid-call loop state: active lifecycle, zero silence counter,
empty audio buffer, loop not ended; every other component free. -/
def activeLoopState (tc : Nat) (hist : List ConvMessage) (er : Option String) (t0 : Nat)
    (spoken0 : List ( String × String )) (calls : Nat) : LoopState :=
  { conv :=
      { turn_count := tc
        conversation_history := hist
        lifecycle := "active"
        silence_count := 0
        ai_exit_reason := er
        started_at := t0 }
    bufferMs := 0
    spoken := spoken0
    sttCalls := calls
    ended := false }

/-- Two consecutive empty transcriptions: each utterance window is 14
accumulation chunks plus the full-buffer chunk whose transcription is empty.
Returns the state after the first window and the state after the second. -/
def twoSilenceRun (cfg : LoopCfg) (iter0 : Nat) (st0 : LoopState) (n1 n2 : Nat) :
    LoopState × LoopState :=
  let mid := runLoop cfg iter0 st0 (List.replicate 14 (silentChunk n1) ++ [ silentChunk n1 ])
  let fin := runLoop cfg (iter0 + 15) mid
    (List.replicate 14 (silentChunk n2) ++ [ silentChunk n2 ])
  ( mid, fin )

/-- Empty, then non-empty (utterance `u`, answer `r`), then empty
transcription, each preceded by its 14 accumulation chunks. -/
def silenceSpeechSilenceRun (cfg : LoopCfg) (iter0 : Nat) (st0 : LoopState)
    (n1 n2 n3 : Nat) (u r : String) : LoopState :=
  let s1 := runLoop cfg iter0 st0 (List.replicate 14 (silentChunk n1) ++ [ silentChunk n1 ])
  let s2 := runLoop cfg (iter0 + 15) s1
    (List.replicate 14 (silentChunk n2) ++ [ speechChunk n2 u r ])
  runLoop cfg (iter0 + 30) s2 (List.replicate 14 (silentChunk n3) ++ [ silentChunk n3 ])

/-!
Helper lemmas about the loop model, shared by the claim theorems below.
-/

lemma runLoop_of_ended (cfg : LoopCfg) (iter : Nat) (st : LoopState) (xs : List ChunkInput)
    (h : st.ended = true) : runLoop cfg iter st xs = st := by
  cases xs with
  | nil => rfl
  | cons a rest => simp [runLoop, h]

lemma runLoop_append (cfg : LoopCfg) :
    ∀ (xs ys : List ChunkInput) (iter : Nat) (st : LoopState),
    runLoop cfg iter st (xs ++ ys)
      = runLoop cfg (iter + xs.length) (runLoop cfg iter st xs) ys := by
  intro xs
  induction xs with
  | nil => intro ys iter st; simp [runLoop]
  | cons x xs ih =>
      intro ys iter st
      cases hst : st.ended with
      | true =>
          simp only [List.cons_append, runLoop, hst, if_pos]
          rw [runLoop_of_ended cfg _ st ys hst]
      | false =>
          simp only [List.cons_append, runLoop, hst, Bool.false_eq_true, if_false,
            List.append_eq]
          rw [ih ys (iter + 1)]
          have h3 : iter + 1 + xs.length = iter + (xs.length + 1) := by omega
          simp [h3]

lemma should_end_active (s : ConvState) (now mt md : Nat)
    (hl : s.lifecycle = "active") (h1 : s.turn_count < mt) (h2 : now - s.started_at < md) :
    should_end_conversation (some s) now mt md = ( false, none ) := by
  simp [should_end_conversation, hl, Nat.not_le.mpr h1, Nat.not_le.mpr h2]

lemma stepIter_acc (cfg : LoopCfg) (iteration : Nat) (st : LoopState) (inp : ChunkInput)
    (hse : should_end_conversation (some st.conv) inp.now cfg.maxTurns cfg.maxDuration
      = ( false, none ))
    (hiter : iteration < max_iterations)
    (hbuf : st.bufferMs + chunk_duration_ms < max_buffer_duration_ms) :
    stepIter cfg iteration st inp = { st with bufferMs := st.bufferMs + chunk_duration_ms } := by
  unfold stepIter
  rw [hse]
  simp only [if_neg (Nat.not_le.mpr hiter), if_pos hbuf]
  simp

lemma stepIter_silence_first (cfg : LoopCfg) (iteration : Nat) (st : LoopState)
    (inp : ChunkInput) (t : String)
    (hse : should_end_conversation (some st.conv) inp.now cfg.maxTurns cfg.maxDuration
      = ( false, none ))
    (hiter : iteration < max_iterations)
    (hbuf : ¬ st.bufferMs + chunk_duration_ms < max_buffer_duration_ms)
    (hstt : inp.stt = Except.ok t) (ht : pyStrip t = "")
    (hsc : st.conv.silence_count = 0)
    (hprompt : inp.promptPlay = PlayOutcome.ok) :
    stepIter cfg iteration st inp =
      { conv := add_turn { st.conv with silence_count := 1 } "assistant" still_there_prompt inp.now
        bufferMs := 0
        spoken := st.spoken ++ [ ( "silence_prompt", still_there_prompt ) ]
        sttCalls := st.sttCalls + 1
        ended := st.ended } := by
  unfold stepIter
  rw [hse]
  simp only [if_neg (Nat.not_le.mpr hiter), if_neg hbuf, hstt, ht, increment_silence_count,
    play_response, hprompt, hsc]
  simp

lemma stepIter_silence_second (cfg : LoopCfg) (iteration : Nat) (st : LoopState)
    (inp : ChunkInput) (t : String)
    (hse : should_end_conversation (some st.conv) inp.now cfg.maxTurns cfg.maxDuration
      = ( false, none ))
    (hiter : iteration < max_iterations)
    (hbuf : ¬ st.bufferMs + chunk_duration_ms < max_buffer_duration_ms)
    (hstt : inp.stt = Except.ok t) (ht : pyStrip t = "")
    (hsc : st.conv.silence_count = 1)
    (hgb : inp.goodbyePlay = PlayOutcome.ok) :
    stepIter cfg iteration st inp =
      { conv := add_turn (set_exit_reason { st.conv with silence_count := 2 } "silence")
          "assistant" "I haven't heard from you. Thank you for calling. Goodbye." inp.now
        bufferMs := st.bufferMs + chunk_duration_ms
        spoken := st.spoken ++
          [ ( "goodbye", "I haven't heard from you. Thank you for calling. Goodbye." ) ]
        sttCalls := st.sttCalls + 1
        ended := true } := by
  unfold stepIter
  rw [hse]
  simp only [if_neg (Nat.not_le.mpr hiter), if_neg hbuf, hstt, ht, increment_silence_count,
    play_response, hgb, hsc, error_responses]
  simp

lemma stepIter_user_turn (cfg : LoopCfg) (iteration : Nat) (st : LoopState)
    (inp : ChunkInput) (t r : String)
    (hse : should_end_conversation (some st.conv) inp.now cfg.maxTurns cfg.maxDuration
      = ( false, none ))
    (hiter : iteration < max_iterations)
    (hbuf : ¬ st.bufferMs + chunk_duration_ms < max_buffer_duration_ms)
    (hstt : inp.stt = Except.ok t) (ht : ¬ pyStrip t = "")
    (hllm : inp.llm = Except.ok r) (hconf : isConfused r = false)
    (hplay : inp.respPlay = PlayOutcome.ok) (hov : inp.overrun = false) :
    stepIter cfg iteration st inp =
      { conv := add_turn (add_turn (reset_silence_count st.conv) "user" t inp.now)
          "assistant" r inp.now
        bufferMs := 0
        spoken := st.spoken ++ [ ( "response", r ) ]
        sttCalls := st.sttCalls + 1
        ended := st.ended } := by
  unfold stepIter
  rw [hse]
  simp only [if_neg (Nat.not_le.mpr hiter), if_neg hbuf, hstt, if_neg ht, hllm, hconf,
    play_response, hplay, hov]
  simp

lemma runLoop_acc (cfg : LoopCfg) (inp : ChunkInput) :
    ∀ (k iter : Nat) (st : LoopState),
    st.ended = false →
    should_end_conversation (some st.conv) inp.now cfg.maxTurns cfg.maxDuration
      = ( false, none ) →
    iter + k < max_iterations →
    st.bufferMs + k * chunk_duration_ms < max_buffer_duration_ms →
    runLoop cfg iter st (List.replicate k inp)
      = { st with bufferMs := st.bufferMs + k * chunk_duration_ms } := by
  intro k
  induction k with
  | zero =>
      intro iter st hend hse hiter hbuf
      simp [runLoop]
  | succ k ih =>
      intro iter st hend hse hiter hbuf
      rw [List.replicate_succ]
      simp only [runLoop, hend]
      rw [stepIter_acc cfg (iter + 1) st inp hse (by omega) (by
        simp only [chunk_duration_ms, max_buffer_duration_ms] at hbuf ⊢
        omega)]
      rw [ih (iter + 1) _ (by simp [hend]) (by simpa using hse) (by omega) (by
        simp only [chunk_duration_ms, max_buffer_duration_ms] at hbuf ⊢
        omega)]
      have harith : st.bufferMs + chunk_duration_ms + k * chunk_duration_ms
          = st.bufferMs + (k + 1) * chunk_duration_ms := by ring
      simp [harith, hend]

lemma get_history_add_turn (st : ConvState) (r c : String) (t : Nat) :
    get_conversation_history (add_turn st r c t)
      = get_conversation_history st ++ [ ( r, c ) ] := by
  simp [get_conversation_history, add_turn]

lemma get_history_appendTurns :
    ∀ (turns : List ((String × String) × Nat)) (st : ConvState),
    get_conversation_history (appendTurns st turns)
      = get_conversation_history st ++ turns.map Prod.fst := by
  intro turns
  induction turns with
  | nil => intro st; simp [appendTurns]
  | cons x xs ih =>
      intro st
      simp only [appendTurns, List.foldl_cons] at ih ⊢
      rw [ih, get_history_add_turn]
      simp

lemma runLoop_silence_window (cfg : LoopCfg) (iter0 n : Nat) (st : LoopState)
    (hend : st.ended = false) (hbuf0 : st.bufferMs = 0)
    (hl : st.conv.lifecycle = "active") (htc : st.conv.turn_count < cfg.maxTurns)
    (hdur : n - st.conv.started_at < cfg.maxDuration)
    (hsc : st.conv.silence_count = 0)
    (hiter : iter0 + 15 < max_iterations) :
    runLoop cfg iter0 st (List.replicate 14 (silentChunk n) ++ [ silentChunk n ])
      = { conv := add_turn { st.conv with silence_count := 1 } "assistant" still_there_prompt n
          bufferMs := 0
          spoken := st.spoken ++ [ ( "silence_prompt", still_there_prompt ) ]
          sttCalls := st.sttCalls + 1
          ended := false } := by
  obtain ⟨conv, buf, sp, calls, en⟩ := st
  dsimp only at hend hbuf0 hl htc hdur hsc ⊢
  subst hend hbuf0
  have hse : should_end_conversation (some conv) n cfg.maxTurns cfg.maxDuration
      = ( false, none ) := should_end_active _ _ _ _ hl htc hdur
  rw [runLoop_append]
  rw [runLoop_acc cfg (silentChunk n) 14 iter0 ⟨conv, 0, sp, calls, false⟩ rfl
    (by simpa [silentChunk, benignInput] using hse) (by omega)
    (by norm_num [chunk_duration_ms, max_buffer_duration_ms])]
  simp only [List.length_replicate, runLoop, Bool.false_eq_true, if_false]
  rw [stepIter_silence_first cfg (iter0 + 14 + 1)
    ⟨conv, 0 + 14 * chunk_duration_ms, sp, calls, false⟩ (silentChunk n) ""
    (by simpa [silentChunk, benignInput] using hse) (by omega)
    (by norm_num [chunk_duration_ms, max_buffer_duration_ms]) rfl (by decide)
    (by simpa using hsc) rfl]
  simp [silentChunk, benignInput]

lemma runLoop_silence_window_exit (cfg : LoopCfg) (iter0 n : Nat) (st : LoopState)
    (hend : st.ended = false) (hbuf0 : st.bufferMs = 0)
    (hl : st.conv.lifecycle = "active") (htc : st.conv.turn_count < cfg.maxTurns)
    (hdur : n - st.conv.started_at < cfg.maxDuration)
    (hsc : st.conv.silence_count = 1)
    (hiter : iter0 + 15 < max_iterations) :
    runLoop cfg iter0 st (List.replicate 14 (silentChunk n) ++ [ silentChunk n ])
      = { conv := add_turn (set_exit_reason { st.conv with silence_count := 2 } "silence")
            "assistant" "I haven't heard from you. Thank you for calling. Goodbye." n
          bufferMs := 0 + 14 * chunk_duration_ms + chunk_duration_ms
          spoken := st.spoken ++
            [ ( "goodbye", "I haven't heard from you. Thank you for calling. Goodbye." ) ]
          sttCalls := st.sttCalls + 1
          ended := true } := by
  obtain ⟨conv, buf, sp, calls, en⟩ := st
  dsimp only at hend hbuf0 hl htc hdur hsc ⊢
  subst hend hbuf0
  have hse : should_end_conversation (some conv) n cfg.maxTurns cfg.maxDuration
      = ( false, none ) := should_end_active _ _ _ _ hl htc hdur
  rw [runLoop_append]
  rw [runLoop_acc cfg (silentChunk n) 14 iter0 ⟨conv, 0, sp, calls, false⟩ rfl
    (by simpa [silentChunk, benignInput] using hse) (by omega)
    (by norm_num [chunk_duration_ms, max_buffer_duration_ms])]
  simp only [List.length_replicate, runLoop, Bool.false_eq_true, if_false]
  rw [stepIter_silence_second cfg (iter0 + 14 + 1)
    ⟨conv, 0 + 14 * chunk_duration_ms, sp, calls, false⟩ (silentChunk n) ""
    (by simpa [silentChunk, benignInput] using hse) (by omega)
    (by norm_num [chunk_duration_ms, max_buffer_duration_ms]) rfl (by decide)
    (by simpa using hsc) rfl]
  simp [silentChunk, benignInput]

lemma runLoop_speech_window (cfg : LoopCfg) (iter0 n : Nat) (st : LoopState) (u r : String)
    (hend : st.ended = false) (hbuf0 : st.bufferMs = 0)
    (hl : st.conv.lifecycle = "active") (htc : st.conv.turn_count < cfg.maxTurns)
    (hdur : n - st.conv.started_at < cfg.maxDuration)
    (hu : ¬ pyStrip u = "") (hr : isConfused r = false)
    (hiter : iter0 + 15 < max_iterations) :
    runLoop cfg iter0 st (List.replicate 14 (silentChunk n) ++ [ speechChunk n u r ])
      = { conv := add_turn (add_turn (reset_silence_count st.conv) "user" u n)
            "assistant" r n
          bufferMs := 0
          spoken := st.spoken ++ [ ( "response", r ) ]
          sttCalls := st.sttCalls + 1
          ended := false } := by
  obtain ⟨conv, buf, sp, calls, en⟩ := st
  dsimp only at hend hbuf0 hl htc hdur ⊢
  subst hend hbuf0
  have hse : should_end_conversation (some conv) n cfg.maxTurns cfg.maxDuration
      = ( false, none ) := should_end_active _ _ _ _ hl htc hdur
  rw [runLoop_append]
  rw [runLoop_acc cfg (silentChunk n) 14 iter0 ⟨conv, 0, sp, calls, false⟩ rfl
    (by simpa [silentChunk, benignInput] using hse) (by omega)
    (by norm_num [chunk_duration_ms, max_buffer_duration_ms])]
  simp only [List.length_replicate, runLoop, Bool.false_eq_true, if_false]
  rw [stepIter_user_turn cfg (iter0 + 14 + 1)
    ⟨conv, 0 + 14 * chunk_duration_ms, sp, calls, false⟩ (speechChunk n u r) u r
    (by simpa [speechChunk, benignInput] using hse) (by omega)
    (by norm_num [chunk_duration_ms, max_buffer_duration_ms]) rfl hu rfl hr rfl rfl]
  simp [speechChunk, benignInput]

/-- C4: from any active mid-call state with a zero silence counter, the first
empty transcription yields exactly one "Are you still there?" prompt and the
loop keeps listening with silence counter 1 and exit reason untouched; the
immediately following empty transcription sets exit reason "silence", yields
exactly one goodbye line, and terminates the loop — exactly two spoken lines
across the two silences. -/
theorem C4_two_silences (cfg : LoopCfg) (iter0 tc t0 n1 n2 calls : Nat)
    (hist : List ConvMessage) (er : Option String) (spoken0 : List ( String × String ))
    (h_tc : tc < cfg.maxTurns)
    (h_n1 : n1 - t0 < cfg.maxDuration) (h_n2 : n2 - t0 < cfg.maxDuration)
    (h_iter : iter0 + 30 < max_iterations) :
    ((twoSilenceRun cfg iter0 (activeLoopState tc hist er t0 spoken0 calls) n1 n2).1.spoken
        = spoken0 ++ [ ( "silence_prompt", still_there_prompt ) ]) ∧
    ((twoSilenceRun cfg iter0 (activeLoopState tc hist er t0 spoken0 calls) n1 n2).1.ended
        = false) ∧
    ((twoSilenceRun cfg iter0 (activeLoopState tc hist er t0 spoken0 calls) n1 n2).1.conv.silence_count
        = 1) ∧
    ((twoSilenceRun cfg iter0 (activeLoopState tc hist er t0 spoken0 calls) n1 n2).1.conv.ai_exit_reason
        = er) ∧
    ((twoSilenceRun cfg iter0 (activeLoopState tc hist er t0 spoken0 calls) n1 n2).2.conv.ai_exit_reason
        = some "silence") ∧
    ((twoSilenceRun cfg iter0 (activeLoopState tc hist er t0 spoken0 calls) n1 n2).2.ended
        = true) ∧
    ((twoSilenceRun cfg iter0 (activeLoopState tc hist er t0 spoken0 calls) n1 n2).2.spoken
        = spoken0 ++ [ ( "silence_prompt", still_there_prompt ),
            ( "goodbye", "I haven't heard from you. Thank you for calling. Goodbye." ) ]) := by
  have h1 := runLoop_silence_window cfg iter0 n1 (activeLoopState tc hist er t0 spoken0 calls)
    rfl rfl rfl h_tc h_n1 rfl (by omega)
  have h2 := runLoop_silence_window_exit cfg (iter0 + 15) n2
    { conv := add_turn { (activeLoopState tc hist er t0 spoken0 calls).conv with
          silence_count := 1 } "assistant" still_there_prompt n1
      bufferMs := 0
      spoken := (activeLoopState tc hist er t0 spoken0 calls).spoken
        ++ [ ( "silence_prompt", still_there_prompt ) ]
      sttCalls := (activeLoopState tc hist er t0 spoken0 calls).sttCalls + 1
      ended := false }
    rfl rfl (by simp [activeLoopState, add_turn]) (by simpa [activeLoopState, add_turn] using h_tc)
    (by simpa [activeLoopState, add_turn] using h_n2) (by simp [activeLoopState, add_turn])
    (by omega)
  simp only [twoSilenceRun]
  rw [h1, h2]
  refine ⟨?_, ?_, ?_, ?_, ?_, ?_, ?_⟩ <;>
    simp [activeLoopState, add_turn, set_exit_reason]


/-- C5: the silence counter is incremented by exactly one on each empty
transcription and reset to zero by any non-empty transcription; consequently an
empty, non-empty, empty transcription sequence leaves the loop alive with
silence counter 1 and never sets a silence exit reason. -/
theorem C5_silence_counter (cfg : LoopCfg) (iter0 tc t0 n1 n2 n3 calls : Nat)
    (hist : List ConvMessage) (er : Option String) (spoken0 : List ( String × String ))
    (u r : String)
    (h_tc : tc + 1 < cfg.maxTurns)
    (h_n1 : n1 - t0 < cfg.maxDuration) (h_n2 : n2 - t0 < cfg.maxDuration)
    (h_n3 : n3 - t0 < cfg.maxDuration)
    (h_iter : iter0 + 45 < max_iterations)
    (hu : ¬ pyStrip u = "") (hr : isConfused r = false) :
    (∀ st : ConvState, (increment_silence_count st).1.silence_count = st.silence_count + 1
        ∧ (increment_silence_count st).2 = st.silence_count + 1) ∧
    (∀ st : ConvState, (reset_silence_count st).silence_count = 0) ∧
    ((silenceSpeechSilenceRun cfg iter0 (activeLoopState tc hist er t0 spoken0 calls)
        n1 n2 n3 u r).ended = false) ∧
    ((silenceSpeechSilenceRun cfg iter0 (activeLoopState tc hist er t0 spoken0 calls)
        n1 n2 n3 u r).conv.ai_exit_reason = er) ∧
    ((silenceSpeechSilenceRun cfg iter0 (activeLoopState tc hist er t0 spoken0 calls)
        n1 n2 n3 u r).conv.silence_count = 1) := by
  refine ⟨fun st => ⟨rfl, rfl⟩, fun st => rfl, ?_, ?_, ?_⟩ <;>
  · simp only [silenceSpeechSilenceRun]
    rw [runLoop_silence_window cfg iter0 n1 (activeLoopState tc hist er t0 spoken0 calls)
      rfl rfl rfl (Nat.lt_of_succ_lt h_tc) h_n1 rfl (by omega)]
    rw [runLoop_speech_window cfg (iter0 + 15) n2 _ u r rfl rfl
      (by simp [activeLoopState, add_turn])
      (by simpa [activeLoopState, add_turn] using Nat.lt_of_succ_lt h_tc)
      (by simpa [activeLoopState, add_turn] using h_n2) hu hr (by omega)]
    rw [runLoop_silence_window cfg (iter0 + 30) n3 _ rfl rfl
      (by simp [activeLoopState, add_turn, reset_silence_count])
      (by simpa [activeLoopState, add_turn, reset_silence_count] using h_tc)
      (by simpa [activeLoopState, add_turn, reset_silence_count] using h_n3)
      (by simp [activeLoopState, add_turn, reset_silence_count]) (by omega)]
    all_goals simp [activeLoopState, add_turn, reset_silence_count]

/-- C7: appending N turns to a fresh call document via add_turn and reading the
history back via get_conversation_history yields exactly those N (role, content)
pairs, in the same order, with each role preserved. -/
theorem C7_history_round_trip (turns : List ((String × String) × Nat)) (t0 : Nat) :
    get_conversation_history (appendTurns (initialState t0) turns) = turns.map Prod.fst := by
  rw [get_history_appendTurns]
  simp [get_conversation_history, initialState]

/-- C3 counterexample: on a state whose exit reason is already set to "silence",
set_exit_reason overwrites it with "timeout" and mark_ending overwrites it with
"max_turns" — neither write is a no-op, refuting the claim as stated. -/
theorem C3_counterexample :
    prior_reason_state.ai_exit_reason = some "silence" ∧
    (set_exit_reason prior_reason_state "timeout").ai_exit_reason = some "timeout" ∧
    (mark_ending prior_reason_state (some "max_turns")).ai_exit_reason = some "max_turns" := by
  refine ⟨rfl, rfl, rfl⟩

/-- C3 amended: set_exit_reason always writes its argument, overwriting any
previously recorded exit reason; mark_ending overwrites the exit reason whenever
it is given a non-empty reason, and preserves it only when given none or the
empty string. The write-once discipline is not enforced by the store. -/
theorem C3_exit_reason_overwrite :
    (∀ (st : ConvState) (r : String), (set_exit_reason st r).ai_exit_reason = some r) ∧
    (∀ (st : ConvState) (r : String), r ≠ "" →
        (mark_ending st (some r)).ai_exit_reason = some r) ∧
    (∀ st : ConvState, (mark_ending st none).ai_exit_reason = st.ai_exit_reason) ∧
    (∀ st : ConvState, (mark_ending st (some "")).ai_exit_reason = st.ai_exit_reason) := by
  refine ⟨fun st r => rfl, fun st r hr => ?_, fun st => rfl, fun st => rfl⟩
  simp [mark_ending, hr]

/-- C3 witness: the amended overwrite behaviour evaluated at a state whose exit
reason was already "silence". -/
theorem C3_exit_reason_overwrite_witness :
    (mark_ending prior_reason_state (some "max_turns")).ai_exit_reason = some "max_turns" :=
  C3_exit_reason_overwrite.2.1 prior_reason_state "max_turns" (by decide)

/-- C6 counterexample: on a session already marked ending with recorded exit
reason "silence", should_end_conversation returns the fixed reason
"already_ending", not the prior reason — refuting the claim as stated. -/
theorem C6_counterexample :
    should_end_conversation (some ending_reason_state) 0 20 300
      = ( true, some "already_ending" ) ∧
    ending_reason_state.ai_exit_reason = some "silence" ∧
    (some "already_ending" : Option String) ≠ some "silence" := by
  refine ⟨rfl, rfl, by decide⟩

/-- C6 amended: should_end_conversation decides in priority order — already
ending/ended yields the fixed reason "already_ending" (not the previously
recorded exit reason); otherwise turn_count at or above max_turns yields
"max_turns"; otherwise elapsed time at or above max_duration yields
"max_duration"; otherwise the conversation continues. -/
theorem C6_termination_priority (s : ConvState) (now mt md : Nat) :
    ((s.lifecycle = "ending" ∨ s.lifecycle = "ended") →
        should_end_conversation (some s) now mt md = ( true, some "already_ending" )) ∧
    (¬ (s.lifecycle = "ending" ∨ s.lifecycle = "ended") → mt ≤ s.turn_count →
        should_end_conversation (some s) now mt md = ( true, some "max_turns" )) ∧
    (¬ (s.lifecycle = "ending" ∨ s.lifecycle = "ended") → s.turn_count < mt →
        md ≤ now - s.started_at →
        should_end_conversation (some s) now mt md = ( true, some "max_duration" )) ∧
    (¬ (s.lifecycle = "ending" ∨ s.lifecycle = "ended") → s.turn_count < mt →
        now - s.started_at < md →
        should_end_conversation (some s) now mt md = ( false, none )) := by
  refine ⟨?_, ?_, ?_, ?_⟩
  · intro h; simp [should_end_conversation, h]
  · intro h hle; simp [should_end_conversation, h, hle]
  · intro h hlt hd; simp [should_end_conversation, h, Nat.not_le.mpr hlt, hd]
  · intro h hlt hd
    simp [should_end_conversation, h, Nat.not_le.mpr hlt, Nat.not_le.mpr hd]

/-- C6 witness: the already-ending branch evaluated at a concrete ending state. -/
theorem C6_termination_priority_witness :
    should_end_conversation (some ending_reason_state) 0 20 300
      = ( true, some "already_ending" ) :=
  (C6_termination_priority ending_reason_state 0 20 300).1 (Or.inl rfl)

/-- C10: synthesize_speech truncates text longer than 500 characters to its
first 500 characters plus "..." before synthesis, passes shorter non-blank text
through unmodified, and every prepared text is one of those two forms — the
synthesized audio never reflects more than the first 500 requested characters. -/
theorem C10_tts_truncation :
    (∀ text : String, ¬ pyStrip text = "" → 500 < text.length →
        synthesize_speech_prepared text = some (pyTake text 500 ++ "...")) ∧
    (∀ text : String, ¬ pyStrip text = "" → text.length ≤ 500 →
        synthesize_speech_prepared text = some text) ∧
    (∀ text prepared : String, synthesize_speech_prepared text = some prepared →
        prepared = pyTake text 500 ++ "..." ∨ (prepared = text ∧ text.length ≤ 500)) := by
  refine ⟨?_, ?_, ?_⟩
  · intro t h1 h2; simp [synthesize_speech_prepared, h1, h2]
  · intro t h1 h2; simp [synthesize_speech_prepared, h1, Nat.not_lt.mpr h2]
  · intro t p h
    by_cases h1 : pyStrip t = ""
    · simp [synthesize_speech_prepared, h1] at h
    · by_cases h2 : 500 < t.length
      · left
        simp [synthesize_speech_prepared, h1, h2] at h
        exact h.symm
      · right
        simp [synthesize_speech_prepared, h1, h2] at h
        exact ⟨h.symm, Nat.not_lt.mp h2⟩

/-- C10 witness: a short text is passed to synthesis unmodified. -/
theorem C10_tts_truncation_witness :
    synthesize_speech_prepared "Hello" = some "Hello" :=
  C10_tts_truncation.2.1 "Hello" (by decide) (by decide)

/-- C2 counterexample: with an oracle whose first API attempt fails and second
succeeds, transcribe_audio makes two attempts and returns the second attempt's
result instead of raising — refuting the claim that every adapter makes exactly
one attempt and raises on any failure. -/
theorem C2_single_attempt_counterexample :
    (transcribe_audio true stt_cex_oracle).2 = 2 ∧
    (transcribe_audio true stt_cex_oracle).1 = some "hello" ∧ (2 : Nat) ≠ 1 := by
  refine ⟨rfl, rfl, by decide⟩

/-- C2 amended: generate_response is single-attempt (max_retries = 0): its result
is the first attempt's outcome after exactly one attempt; transcribe_audio and
synthesize_speech retry up to max_retries = 2, making at most three attempts,
returning the first success and raising their typed error only after all three
attempts fail. -/
theorem C2_adapter_attempts :
    (∀ (p : String) (oracle : Nat → Option String), ¬ pyStrip p = "" →
        generate_response p oracle = ( oracle 0, 1 )) ∧
    (∀ oracle : Nat → Option String,
        transcribe_audio true oracle =
          match oracle 0 with
          | some v => ( some v, 1 )
          | none =>
            match oracle 1 with
            | some v => ( some v, 2 )
            | none =>
              match oracle 2 with
              | some v => ( some v, 3 )
              | none => ( none, 3 )) ∧
    (∀ (text : String) (oracle : Nat → Option (List Nat)), ¬ pyStrip text = "" →
        synthesize_speech text oracle =
          match oracle 0 with
          | some v => ( some v, 1 )
          | none =>
            match oracle 1 with
            | some v => ( some v, 2 )
            | none =>
              match oracle 2 with
              | some v => ( some v, 3 )
              | none => ( none, 3 )) := by
  refine ⟨?_, ?_, ?_⟩
  · intro p oracle hp
    cases h0 : oracle 0 <;>
      simp [generate_response, hp, llm_max_retries, run_attempts, h0]
  · intro oracle
    cases h0 : oracle 0 <;> cases h1 : oracle 1 <;> cases h2 : oracle 2 <;>
      simp [transcribe_audio, stt_max_retries, run_attempts, h0, h1, h2]
  · intro text oracle ht
    have hp : synthesize_speech_prepared text ≠ none := by
      simp only [synthesize_speech_prepared, if_neg ht]
      split <;> simp
    cases hpe : synthesize_speech_prepared text with
    | none => exact absurd hpe hp
    | some w =>
        cases h0 : oracle 0 <;> cases h1 : oracle 1 <;> cases h2 : oracle 2 <;>
          simp [synthesize_speech, hpe, tts_max_retries, run_attempts, h0, h1, h2]

/-- C2 witness: generate_response with an always-failing oracle raises after
exactly one attempt. -/
theorem C2_adapter_attempts_witness :
    generate_response "You are a helpful assistant" (fun _ => none) = ( none, 1 ) := by
  have h := C2_adapter_attempts.1 "You are a helpful assistant" (fun _ => none) (by decide)
  simpa using h

/-- C9: the voice-activity classifier is a pure function of the chunk bytes and
the threshold — for any decodable, non-empty 16-bit PCM chunk it reports silence
exactly when the RMS energy is below the threshold (stated in the equivalent
squared form: sum of squared samples below threshold² times the sample count),
and identical inputs always yield the identical classification. -/
theorem C9_vad_pure_threshold (chunk : List Nat) (t : Nat) (ss : List Int)
    (h : bytesToSamples chunk = some ss) (hne : ss ≠ []) :
    (is_silence chunk t = true ↔ sumSquares ss < (t : ℤ) ^ 2 * ss.length) ∧
    (∀ (chunk2 : List Nat) (t2 : Nat), chunk2 = chunk → t2 = t →
        is_silence chunk2 t2 = is_silence chunk t) := by
  constructor
  · have hchunk : chunk ≠ [] := by
      intro hc
      subst hc
      simp [bytesToSamples] at h
      exact hne h
    obtain ⟨c, cs, rfl⟩ : ∃ c cs, chunk = c :: cs := by
      cases chunk with
      | nil => exact absurd rfl hchunk
      | cons c cs => exact ⟨c, cs, rfl⟩
    unfold is_silence
    simp only [List.isEmpty_cons, Bool.false_eq_true, if_false, h]
    rw [decide_eq_true_eq]
    have hlen : (0 : ℚ) < (ss.length : ℚ) := by
      have hp : 0 < ss.length := List.length_pos.mpr hne
      exact_mod_cast hp
    rw [div_lt_iff₀ hlen]
    constructor
    · intro hq; exact_mod_cast hq
    · intro hz; exact_mod_cast hz
  · intro c2 t2 hc ht2
    rw [hc, ht2]

/-- C9 witness: a concrete low-energy chunk is classified as silent via the
threshold characterization. -/
theorem C9_vad_witness : is_silence [ 0, 0, 16, 0 ] 500 = true := by
  have h := (C9_vad_pure_threshold [ 0, 0, 16, 0 ] 500 [ 0, 16 ] (by decide) (by decide)).1
  exact h.mpr (by decide)

/-- C8: with max_turns = 2, after two user utterances each answered with a spoken
response, the loop ends with exit reason "max_turns" having invoked transcription
exactly twice — it never transcribes (listens for) a third utterance. -/
theorem C8_max_turns_trace :
    c8_final.conv.ai_exit_reason = some "max_turns" ∧
    c8_final.ended = true ∧
    c8_final.conv.turn_count = 2 ∧
    c8_final.sttCalls = 2 ∧
    c8_final.spoken =
      [ ( "response", "Hi there, how can I assist you today?" ),
        ( "response", "We are open nine to five." ),
        ( "goodbye", "Thank you for calling. I hope I was able to help you today. Goodbye!" ) ]
    := by decide

/-- C1 (code evaluated at the failing input): when transcription raises
STTServiceError and the canned apology plays successfully, the loop records exit
reason "stt_failure" but does not break — it keeps consuming chunks, invokes the
STT service again and plays a further response; and a non-typed step failure is
mapped to exit reason "timeout" by the reachable catch-all handler, never to
"general_error". This contradicts the claim (and the handlers' own comments),
whose intent is an unconditional break with a per-kind exit reason. -/
theorem C1_failure_handling_diverges :
    c1_final.conv.ai_exit_reason = some "stt_failure" ∧
    c1_final.ended = false ∧
    c1_final.sttCalls = 2 ∧
    c1_final.spoken =
      [ ( "error", "I'm sorry, I'm having trouble hearing you. Goodbye." ),
        ( "response", "Nice to meet you." ) ] ∧
    (stepIter ⟨5, 75⟩ 1 full_buffer_state other_failure_chunk).conv.ai_exit_reason
      = some "timeout" ∧
    (stepIter ⟨5, 75⟩ 1 full_buffer_state other_failure_chunk).ended = true := by decide

/-- C4 witness: the two-silence scenario evaluated from a fresh call document. -/
theorem C4_two_silences_witness :
    ((twoSilenceRun ⟨5, 75⟩ 0 (activeLoopState 0 [] none 0 [] 0) 0 0).1.spoken
        = [ ( "silence_prompt", still_there_prompt ) ]) ∧
    ((twoSilenceRun ⟨5, 75⟩ 0 (activeLoopState 0 [] none 0 [] 0) 0 0).1.ended = false) ∧
    ((twoSilenceRun ⟨5, 75⟩ 0 (activeLoopState 0 [] none 0 [] 0) 0 0).2.conv.ai_exit_reason
        = some "silence") ∧
    ((twoSilenceRun ⟨5, 75⟩ 0 (activeLoopState 0 [] none 0 [] 0) 0 0).2.ended = true) := by
  have h := C4_two_silences ⟨5, 75⟩ 0 0 0 0 0 0 [] none []
    (by decide) (by decide) (by decide) (by decide)
  exact ⟨by simpa using h.1, h.2.1, h.2.2.2.2.1, h.2.2.2.2.2.1⟩

/-- C5 witness: the empty/non-empty/empty scenario evaluated from a fresh call
document. -/
theorem C5_silence_counter_witness :
    ((silenceSpeechSilenceRun ⟨5, 75⟩ 0 (activeLoopState 0 [] none 0 [] 0)
        0 0 0 "Hello" "Nice to meet you.").ended = false) ∧
    ((silenceSpeechSilenceRun ⟨5, 75⟩ 0 (activeLoopState 0 [] none 0 [] 0)
        0 0 0 "Hello" "Nice to meet you.").conv.ai_exit_reason = none) ∧
    ((silenceSpeechSilenceRun ⟨5, 75⟩ 0 (activeLoopState 0 [] none 0 [] 0)
        0 0 0 "Hello" "Nice to meet you.").conv.silence_count = 1) := by
  have h := C5_silence_counter ⟨5, 75⟩ 0 0 0 0 0 0 0 [] none [] "Hello" "Nice to meet you."
    (by decide) (by decide) (by decide) (by decide) (by decide) (by decide) (by decide)
  exact ⟨h.2.2.1, h.2.2.2.1, h.2.2.2.2⟩
